import Mathlib

/-!
Verification of the Skribi language front end (lexer, variable-declaration
parser, legacy line interpreter) against its natural-language specification.

The Rust sources are shallowly embedded: the mutable token queue
(`VecDeque<TokenContainer>`) becomes explicit state passing over
`List TokenContainer`; `Result`/`Option` returns become `Except`/`Option`;
Rust panics (unchecked `unwrap`, out-of-bounds indexing) are a distinguished
abort constructor; machine integers (`u32`, `i32`) are `Nat`/`Int` with
explicit range checks where the Rust parse functions enforce them.
-/

namespace Skribi

/-! ### Error model, from src/skr_errors.rs -/

inductive NotYetImplementedType
| MissingSymbol (s : String)
| MissingGrammar (s : String)
| NotYetVoted (s : String)
| InProgress (s : String)
| Planed (s : String)
| Other (s : String)

inductive CustomError
| InvalidFloat (msg : String) (line : Nat)
| InvalidString (msg : String) (line : Nat)
| UnexpectedToken (msg : String)
| NotYetImplemented (t : NotYetImplementedType)

/-! ### Token model, from src/tokens.rs -/

inductive ModifierKeyword
| Global
| Constant
| Private

inductive SpaceTypes
| Space
| NewLine
| Tab

/-- Token from src/tokens.rs. `Int` carries the `u32` payload as a `Nat`
(`parseU32` below only produces values below 2^32); `Float` carries the `f32`
payload as a `Float`. -/
inductive Token
| Bool (b : Bool)
| Int (n : Nat)
| Float (f : Float)
| String (s : String)
| NatCall
| Add
| Sub
| Not
| Div
| Mul
| LeftParenthesis
| RightParenthesis
| LeftBrace
| RightBrace
| Inside
| Identifier (s : String)
| Space (t : SpaceTypes)
| KeywordModifier (k : ModifierKeyword)
| KeywordIf
| KeywordElse
| KeywordClass
| KeywordFunction
| KeywordReturn
| KeywordBubbleScope
| KeywordSimpleScope
| KeywordUnusedScope
| Invalid (s : String)
| Equal
| NotEqual
| And
| Or

/-- TokenContainer from src/tokens.rs: a token plus its 1-based line and its
column (the lexer keeps `column` fixed at 0, a documented limitation). -/
structure TokenContainer where
  token : Token
  line : Nat
  column : Nat

/-! ### Lexer, from src/tokens.rs

The `Chars` iterator state is embedded as the pair of the current character
(`Option Char`) and the list of not-yet-read characters. Rust's Unicode
classifiers `is_alphabetic` / `is_numeric` / `is_alphanumeric` are modelled by
the ASCII classifiers `Char.isAlpha` / `Char.isDigit` / `Char.isAlphanum`; all
inputs relevant to the claims are ASCII. -/

/-- A lexing abort: either a `CustomError` returned with `Err`, or a Rust
panic (the `unwrap` calls in `tokenize_number`). Panic messages are modelled
by short fixed strings, not the exact Rust runtime text. -/
inductive LexAbort
| err (e : CustomError)
| panicked (msg : String)

/-- Overall outcome of one `tokenize` call. -/
inductive LexOutcome
| ok (toks : List TokenContainer)
| err (e : CustomError)
| panicked (msg : String)

/-- The escape mapping inside `tokenize_string` (src/tokens.rs lines 101-107). -/
def escChar (c : Char) : Char :=
  match c with
  | 'n' => '\n'
  | 't' => '\t'
  | 'r' => '\r'
  | '0' => '\x00'
  | _ => c

/-- tokenize_string from src/tokens.rs: scans after the opening quote with an
escape flag, returns the token and the unread remainder on the closing quote,
and the invalid-string error at end of input. -/
def tokenize_string (line : Nat) : List Char → Bool → String → Except CustomError (Token × List Char)
| [], _, _ => .error (.InvalidString "String not closed" line)
| ch :: rest, string_escape, res =>
  if string_escape then
    tokenize_string line rest false (res.push (escChar ch))
  else if ch = '\\' then
    tokenize_string line rest true res
  else if ch = '\x22' then
    .ok (.String res, rest)
  else
    tokenize_string line rest false (res.push ch)

/-- word_to_token from src/tokens.rs: the fixed keyword table. -/
def word_to_token (res : String) : Token :=
  match res with
  | "fu" => .KeywordModifier .Global
  | "ju" => .KeywordModifier .Constant
  | "pu" => .KeywordModifier .Private
  | "ij" => .KeywordIf
  | "sula" => .KeywordElse
  | "skr_app" => .NatCall
  | "io" => .Bool true
  | "no" => .Bool false
  | "ums" => .KeywordFunction
  | "kat" => .KeywordClass
  | "ei" => .KeywordReturn
  | "biuli" => .KeywordBubbleScope
  | "kodi" => .KeywordSimpleScope
  | "spoki" => .KeywordUnusedScope
  | _ => .Identifier res

/-- tokenize_word from src/tokens.rs: accumulates alphanumeric / underscore
characters onto the first character and returns the stopping character (the
Rust `Result` wrapper is dropped: the source function never returns `Err`). -/
def tokenize_word : List Char → String → Token × Option Char × List Char
| [], res => (word_to_token res, none, [])
| ch :: rest, res =>
  if ch.isAlphanum || ch = '_' then
    tokenize_word rest (res.push ch)
  else
    (word_to_token res, some ch, rest)

/-- Digit accumulation used to model Rust's integer string parsing. -/
def digitsToNat (cs : List Char) : Nat :=
  cs.foldl (fun acc c => acc * 10 + (c.toNat - 48)) 0

/-- Models `str::parse::<u32>` on the digit-only strings accumulated by
`tokenize_number` (sign syntax never arises there): succeeds exactly when the
string is a nonempty digit sequence whose value fits in 32 bits. -/
def parseU32 (s : String) : Option Nat :=
  let cs := s.toList
  if cs ≠ [] ∧ cs.all Char.isDigit then
    let v := digitsToNat cs
    if v < 2 ^ 32 then some v else none
  else none

/-- One optional leading sign, as in Rust's float grammar: returns the
negative flag and the remaining characters. At most one sign is consumed. -/
def stripSign : List Char → Bool × List Char
| '+' :: cs => (false, cs)
| '-' :: cs => (true, cs)
| cs => (false, cs)

/-- Scales a mantissa by a power of ten for the decimal exponent. -/
def applyExp (x : Float) : Int → Float
| Int.ofNat n => x * Float.ofNat (10 ^ n)
| Int.negSucc n => x / Float.ofNat (10 ^ (n + 1))

/-- Models `str::parse::<f32>`. Success and failure follow exactly the grammar
Rust's `f32::from_str` documents — `Sign? (inf | infinity | nan | Number)`
with the special words case-insensitive, `Number ::= Count DOT? Count? Exp?`
or `DOT Count Exp?`, `Exp ::= (e | E) Sign? Count`, `Count ::= Digit+` — and
the parse never fails on range (overflow rounds to infinity), so failure is
purely syntactic. The numeric value is an approximation of f32 rounding — no
claim depends on the value, only on success or failure. -/
def parseF32 (s : String) : Option Float :=
  let (neg, cs) := stripSign s.toList
  let lower := cs.map Char.toLower
  if lower = ['i', 'n', 'f'] ∨ lower = ['i', 'n', 'f', 'i', 'n', 'i', 't', 'y'] then
    some (if neg then -(1.0 / 0.0) else (1.0 / 0.0))
  else if lower = ['n', 'a', 'n'] then
    some (0.0 / 0.0)
  else
    let mantissa := cs.takeWhile (fun c => c ≠ 'e' && c ≠ 'E')
    let expChars := cs.dropWhile (fun c => c ≠ 'e' && c ≠ 'E')
    let expVal : Option Int :=
      match expChars with
      | [] => some 0
      | _ :: ecs =>
        let (eneg, ecs2) := stripSign ecs
        if ecs2 ≠ [] ∧ ecs2.all Char.isDigit then
          some (if eneg then -(digitsToNat ecs2 : Int) else (digitsToNat ecs2 : Int))
        else none
    match expVal with
    | none => none
    | some e =>
      let intPart := mantissa.takeWhile (· ≠ '.')
      let dotRest := mantissa.dropWhile (· ≠ '.')
      let frac := match dotRest with
        | [] => ([] : List Char)
        | _ :: f => f
      if (intPart ≠ [] ∨ frac ≠ []) ∧ intPart.all Char.isDigit ∧ frac.all Char.isDigit then
        let base := Float.ofNat (digitsToNat intPart)
          + Float.ofNat (digitsToNat frac) / Float.ofNat (10 ^ frac.length)
        some (applyExp (if neg then -base else base) e)
      else none

/-- The two `res.parse().unwrap()` sites closing a numeric scan
(src/tokens.rs lines 150-157 and 162-169): a failed parse is an unchecked
`unwrap`, i.e. a panic, not a `CustomError`. -/
def finishNumber (res : String) (is_float : Bool) : Except LexAbort Token :=
  if is_float then
    match parseF32 res with
    | some f => .ok (.Float f)
    | none => .error (.panicked "called unwrap on an Err value (f32 parse)")
  else
    match parseU32 res with
    | some n => .ok (.Int n)
    | none => .error (.panicked "called unwrap on an Err value (u32 parse)")

/-- tokenize_number from src/tokens.rs: accumulates digits, allows exactly one
dot (a second dot is the invalid-float error), and on scan end builds the Int
or Float token by the unchecked parse of the accumulated text. -/
def tokenize_number (line : Nat) : List Char → String → Bool → Except LexAbort (Token × Option Char × List Char)
| [], res, is_float =>
  (finishNumber res is_float).map (fun t => (t, none, []))
| ch :: rest, res, is_float =>
  if ch = '.' then
    if is_float then
      .error (.err (.InvalidFloat "A float can have only one . !" line))
    else
      tokenize_number line rest (res.push ch) true
  else if ch.isDigit then
    tokenize_number line rest (res.push ch) is_float
  else
    (finishNumber res is_float).map (fun t => (t, some ch, rest))

/-- tokenize_comment_classic from src/tokens.rs: consumes characters through
the next newline (the newline itself is consumed from the stream) or to end of
input, returning the unread remainder. -/
def tokenize_comment_classic : List Char → List Char
| [] => []
| ch :: rest => if ch = '\n' then rest else tokenize_comment_classic rest

/-- One `file_ch.next()` call: the next character and the rest. -/
def nextChar : List Char → Option Char × List Char
| [] => (none, [])
| c :: rest => (some c, rest)

/-- The `while let Some(ch) = current_ch` loop of `tokenize`
(src/tokens.rs lines 238-288), with explicit fuel counting loop iterations:
`none` means the loop has not terminated within `fuel` iterations. Note the
faithful embedding of the lone-slash-at-end-of-input branch (source lines
249-251): `Div` is pushed but `current_ch` is not advanced, so the loop
repeats with an unchanged character state. -/
def tokenize_loop : Nat → Option Char → List Char → Nat → List TokenContainer → Option LexOutcome
| _, none, _, _, acc => some (.ok acc)
| 0, some _, _, _, _ => none
| fuel + 1, some ch, rest, line, acc =>
  if ch = '/' then
    match rest with
    | next_ch :: rest2 =>
      if next_ch = '/' then
        let rest3 := tokenize_comment_classic rest2
        let (nc, rest4) := nextChar rest3
        tokenize_loop fuel nc rest4 line (acc ++ [⟨.Space .NewLine, line, 0⟩])
      else
        tokenize_loop fuel (some next_ch) rest2 line (acc ++ [⟨.Div, line, 0⟩])
    | [] =>
      tokenize_loop fuel (some ch) [] line (acc ++ [⟨.Div, line, 0⟩])
  else if ch.isAlpha || ch = '_' then
    let (t, nc, rest2) := tokenize_word rest (String.singleton ch)
    tokenize_loop fuel nc rest2 line (acc ++ [⟨t, line, 0⟩])
  else if ch.isDigit then
    match tokenize_number line rest (String.singleton ch) false with
    | .error (.err e) => some (.err e)
    | .error (.panicked m) => some (.panicked m)
    | .ok (t, nc, rest2) => tokenize_loop fuel nc rest2 line (acc ++ [⟨t, line, 0⟩])
  else if ch = ' ' then
    let (nc, rest2) := nextChar rest
    tokenize_loop fuel nc rest2 line acc
  else if ch = '\x22' then
    match tokenize_string line rest false "" with
    | .error e => some (.err e)
    | .ok (t, rest2) =>
      let (nc, rest3) := nextChar rest2
      tokenize_loop fuel nc rest3 line (acc ++ [⟨t, line, 0⟩])
  else if ch = '\n' then
    let (nc, rest2) := nextChar rest
    tokenize_loop fuel nc rest2 (line + 1) (acc ++ [⟨.Space .NewLine, line + 1, 0⟩])
  else
    let t : Token :=
      match ch with
      | '+' => .Add
      | '-' => .Sub
      | '*' => .Mul
      | ':' => .Inside
      | '(' => .LeftParenthesis
      | ')' => .RightParenthesis
      | '\x7b' => .LeftBrace
      | '\x7d' => .RightBrace
      | _ => .Invalid (String.singleton ch)
    let (nc, rest2) := nextChar rest
    tokenize_loop fuel nc rest2 line (acc ++ [⟨t, line, 0⟩])

/-- tokenize from src/tokens.rs: starts at line 1 with an empty queue and the
first character loaded, then runs the scanning loop. -/
def tokenize (fuel : Nat) (file : String) : Option LexOutcome :=
  let (c, rest) := nextChar file.toList
  tokenize_loop fuel c rest 1 []

/-! ### Variable-declaration parser, from src/parse/nodes/vars.rs

`ResultOption<T>` together with the `&mut VecDeque<TokenContainer>` argument
is embedded as `Except CustomError (Option T × List TokenContainer)`: the
returned list is the state of the queue after the call. -/

/-- Modelled from the spec: `is_type_def` lives in src/parse/nodes/classes.rs,
which is not under src/. The spec says an identifier is treated as a Type node
only if it is registered in a live type registry, seeded with the built-in
literal types string, int, float, bool, null, with class registration left
open. The parse rules are therefore parameterised over the registry predicate
`is_type_def`, and this definition is the spec's built-in seeding. -/
def is_type_def_builtin (s : String) : Bool :=
  s = "string" || s = "int" || s = "float" || s = "bool" || s = "null"

/-- Modelled from the spec: `Exp` (src/parse/nodes/expressions.rs) is not
under src/. The spec's grammar uses an opaque `<exp>` in `<vd>` and its worked
example shows the int-literal token 5 parsing as the expression `exp=5`; only
that fragment is modelled. -/
inductive Exp
| intLit (n : Nat)

/-- Modelled from the spec: `Exp::parse` — an int-literal token at the front
of the queue parses as an expression and is consumed; anything else is a
no-match with the queue unchanged. -/
def Exp.parse (tokens : List TokenContainer) : Except CustomError (Option Exp × List TokenContainer) :=
  match tokens with
  | ⟨Token.Int n, _, _⟩ :: rest => .ok (some (.intLit n), rest)
  | _ => .ok (none, tokens)

/-- Type from src/parse/nodes/vars.rs (named `TypeNode` here because `Type` is
a Lean keyword). -/
structure TypeNode where
  name : String

/-- parse_type from src/parse/nodes/vars.rs: peeks at the front token; an
identifier registered as a type is popped and becomes a Type node, anything
else is a no-match with the queue untouched. The source re-matches the result
of `pop_front`, which is the inspected front and always matches; the model
pops directly. -/
def parse_type (is_type_def : String → Bool) (tokens : List TokenContainer) : Option TypeNode × List TokenContainer :=
  match tokens with
  | ⟨Token.Identifier identifier, _, _⟩ :: rest =>
    if is_type_def identifier then (some ⟨identifier⟩, rest) else (none, tokens)
  | _ => (none, tokens)

/-- Vd from src/parse/nodes/vars.rs (the `Box` around the expression is
erased: Lean inductives own their children directly). -/
structure Vd where
  type_ : TypeNode
  identifier : String
  exp : Exp

/-- Vd::parse from src/parse/nodes/vars.rs: no type means no-match; after the
type, a missing identifier or a no-match expression is a hard unexpected-token
error. The source pops the identifier token before checking it, so the error
branches run on the already-popped queue. -/
def Vd.parse (is_type_def : String → Bool) (tokens : List TokenContainer) : Except CustomError (Option Vd × List TokenContainer) :=
  match parse_type is_type_def tokens with
  | (none, rest) => .ok (none, rest)
  | (some type_, rest) =>
    match rest with
    | ⟨Token.Identifier identifier, _, _⟩ :: rest2 =>
      match Exp.parse rest2 with
      | .error e => .error e
      | .ok (some exp0, rest3) => .ok (some ⟨type_, identifier, exp0⟩, rest3)
      | .ok (none, _) => .error (.UnexpectedToken "Expected an expression")
    | _ => .error (.UnexpectedToken "Expected an identifier")

/-- GlobalVar from src/parse/nodes/vars.rs. -/
structure GlobalVar where
  vd : Vd

/-- PrivateVar from src/parse/nodes/vars.rs. -/
structure PrivateVar where
  vd : Vd

/-- GlobalVar::parse from src/parse/nodes/vars.rs: no `fu` at the front means
no-match with the queue untouched; after consuming `fu`, a no-match from
`Vd::parse` is a hard unexpected-token error. -/
def GlobalVar.parse (is_type_def : String → Bool) (tokens : List TokenContainer) : Except CustomError (Option GlobalVar × List TokenContainer) :=
  match tokens with
  | ⟨Token.KeywordModifier ModifierKeyword.Global, _, _⟩ :: rest =>
    match Vd.parse is_type_def rest with
    | .error e => .error e
    | .ok (some vd, rest2) => .ok (some ⟨vd⟩, rest2)
    | .ok (none, _) => .error (.UnexpectedToken "Expected a variable declaration")
  | _ => .ok (none, tokens)

/-- PrivateVar::parse from src/parse/nodes/vars.rs: same shape as
GlobalVar::parse with the `pu` keyword. -/
def PrivateVar.parse (is_type_def : String → Bool) (tokens : List TokenContainer) : Except CustomError (Option PrivateVar × List TokenContainer) :=
  match tokens with
  | ⟨Token.KeywordModifier ModifierKeyword.Private, _, _⟩ :: rest =>
    match Vd.parse is_type_def rest with
    | .error e => .error e
    | .ok (some vd, rest2) => .ok (some ⟨vd⟩, rest2)
    | .ok (none, _) => .error (.UnexpectedToken "Expected a variable declaration")
  | _ => .ok (none, tokens)

/-- ConstVar from src/parse/nodes/vars.rs. -/
inductive ConstVar
| PrivateVar (pv : Skribi.PrivateVar)
| GlobalVar (gv : Skribi.GlobalVar)
| Vd (vd : Skribi.Vd)

/-- ConstVar::parse from src/parse/nodes/vars.rs: no `ju` at the front means
no-match; after consuming `ju` it tries PrivateVar, then GlobalVar, then plain
Vd, in that order, each continuing on the queue state the previous attempt
returned; if all three are no-matches the result is a hard unexpected-token
error. -/
def ConstVar.parse (is_type_def : String → Bool) (tokens : List TokenContainer) : Except CustomError (Option ConstVar × List TokenContainer) :=
  match tokens with
  | ⟨Token.KeywordModifier ModifierKeyword.Constant, _, _⟩ :: rest =>
    match PrivateVar.parse is_type_def rest with
    | .error e => .error e
    | .ok (some private_var, r) => .ok (some (.PrivateVar private_var), r)
    | .ok (none, r) =>
      match GlobalVar.parse is_type_def r with
      | .error e => .error e
      | .ok (some global_var, r2) => .ok (some (.GlobalVar global_var), r2)
      | .ok (none, r2) =>
        match Vd.parse is_type_def r2 with
        | .error e => .error e
        | .ok (some vd, r3) => .ok (some (.Vd vd), r3)
        | .ok (none, _) => .error (.UnexpectedToken "Expected a variable declaration")
  | _ => .ok (none, tokens)

/-! ### Legacy line interpreter, from src/interpret/variables.rs and
src/interpret.rs -/

/-- VariableType from src/interpret/variables.rs. `Integer` carries the `i32`
payload as an `Int` (`parse_i32` below keeps it in i32 range); `Float` carries
the `f32` payload as a `Float`. -/
inductive VariableType
| String (s : String)
| Integer (n : Int)
| Float (f : Float)
| Boolean (b : Bool)
| Null

/-- VariableStruct from src/interpret/variables.rs (`scope_level` is a `u8`;
only small values arise, so it is carried as a `Nat`). -/
structure VariableStruct where
  name : String
  value : VariableType
  scope_level : Nat
  is_constant : Bool

/-- VariableStruct::new from src/interpret/variables.rs. -/
def VariableStruct.new (name : String) (value : VariableType) (scope_level : Nat) (is_constant : Bool) : VariableStruct :=
  ⟨name, value, scope_level, is_constant⟩

/-- Modelled from the spec: the `error` function used by the legacy
interpreter lives in the crate root (lib.rs), which is not under src/. The
spec's error design says every failure is fatal to the current step and
propagates synchronously to the caller with no recovery, so `error msg` is
embedded as throwing `RtErr.userError msg` (the line-number argument some call
sites pass to `error` is dropped from the message). `RtErr.panicked` models a
Rust panic: an unchecked `unwrap` or an out-of-bounds index or slice; panic
messages are short fixed strings, not the exact Rust runtime text. -/
inductive RtErr
| userError (msg : String)
| panicked (msg : String)

/-- VariableStruct::set_value from src/interpret/variables.rs: a constant
binding fails with the constant-mutation error (via the fatal `error`), else
the value is replaced. -/
def VariableStruct.set_value (v : VariableStruct) (value : VariableType) : Except RtErr VariableStruct :=
  if v.is_constant then
    .error (.userError "Cannot redefine value of constant")
  else
    .ok { v with value := value }

/-- Models `str::parse::<i32>`: optional sign, then a nonempty digit sequence,
value within the i32 range. -/
def parse_i32 (s : String) : Option Int :=
  let core : List Char → Bool → Option Int := fun ds neg =>
    if ds ≠ [] ∧ ds.all Char.isDigit then
      let v : Int := if neg then -(digitsToNat ds : Int) else (digitsToNat ds : Int)
      if -(2 ^ 31) ≤ v ∧ v < 2 ^ 31 then some v else none
    else none
  match s.toList with
  | '-' :: ds => core ds true
  | '+' :: ds => core ds false
  | ds => core ds false

/-- Models `str::parse::<bool>`: exactly the strings true and false. -/
def parse_bool (s : String) : Option Bool :=
  if s = "true" then some true else if s = "false" then some false else none

/-- One `line[i]` index into the word list: out of bounds is a Rust panic. -/
def getPanic (line : List String) (i : Nat) : Except RtErr String :=
  match line.get? i with
  | some s => .ok s
  | none => .error (.panicked ("index out of bounds: the len is " ++ toString line.length ++ " but the index is " ++ toString i))

/-- The modifier counter `i` of `new_variable`: one increment per modifier
keyword found in `args = line[0..2]`, in the source's order pu, fu, ju. -/
def modCount (w0 w1 : String) : Nat :=
  (if [w0, w1].contains "pu" then 1 else 0)
    + (if [w0, w1].contains "fu" then 1 else 0)
    + (if [w0, w1].contains "ju" then 1 else 0)

/-- new_variable from src/interpret/variables.rs, on a whitespace-split line.
`let args = line[0..2].to_vec()` panics when the line has fewer than two
words; the modifier flags and the counter `i` come from `args`; global
together with private is a fatal error; `line[0] == line[1]` is the
duplicated-word fatal error; the declared type is `line[i]`, with the literal
payload read from `line[i + 2]` by an unchecked parse (`unwrap`) for int,
float and bool, and the binding name from `line[i + 1]`; an unknown type name
is a fatal error. All indexing panics on an out-of-bounds position. -/
def new_variable (line : List String) (scope_level : Nat) : Except RtErr VariableStruct :=
  match line with
  | w0 :: w1 :: _ =>
    let is_private := [w0, w1].contains "pu"
    let is_global := [w0, w1].contains "fu"
    let is_constant := [w0, w1].contains "ju"
    let i := modCount w0 w1
    if is_global && is_private then
      .error (.userError "Variable cannot be both global and private")
    else if w0 = w1 then
      .error (.userError ("Syntax error: to many " ++ w0 ++ " in variable declaration"))
    else
      match getPanic line i with
      | .error e => .error e
      | .ok ty =>
        let varRes : Except RtErr VariableType :=
          match ty with
          | "string" =>
            match getPanic line (i + 2) with
            | .error e => .error e
            | .ok s => .ok (.String s)
          | "int" =>
            match getPanic line (i + 2) with
            | .error e => .error e
            | .ok s =>
              match parse_i32 s with
              | some n => .ok (.Integer n)
              | none => .error (.panicked "called unwrap on an Err value (i32 parse)")
          | "float" =>
            match getPanic line (i + 2) with
            | .error e => .error e
            | .ok s =>
              match parseF32 s with
              | some f => .ok (.Float f)
              | none => .error (.panicked "called unwrap on an Err value (f32 parse)")
          | "bool" =>
            match getPanic line (i + 2) with
            | .error e => .error e
            | .ok s =>
              match parse_bool s with
              | some b => .ok (.Boolean b)
              | none => .error (.panicked "called unwrap on an Err value (bool parse)")
          | "null" => .ok .Null
          | _ => .error (.userError "Unknown variable type")
        match varRes with
        | .error e => .error e
        | .ok var =>
          match getPanic line (i + 1) with
          | .error e => .error e
          | .ok nm => .ok (VariableStruct.new nm var (if is_global then 0 else scope_level) is_constant)
  | _ => .error (.panicked "range end index 2 out of range for the line slice")

/-- create_variable from src/interpret.rs. The call site there names a
three-argument `new_variable` returning a (struct, name) pair — a crate
version whose definition is not under src/; the model uses the
`new_variable` of src/interpret/variables.rs and takes the binding's name from
the returned struct, which is the declared name `line[i + 1]`. The `HashMap`
of bindings (source parameter name `variables`, a reserved word in Lean, here
`vars`) is embedded as an association list keyed by name, `contains_key` as
key membership, `insert` as prepending. The `line_number` argument only
feeds the message-free part of the missing lib `error` and is dropped. -/
def create_variable (line : List String) (vars : List (String × VariableStruct)) (scope_level : Nat) : Except RtErr (List (String × VariableStruct)) :=
  match new_variable line scope_level with
  | .error e => .error e
  | .ok temp =>
    if (vars.map Prod.fst).contains temp.name then
      .error (.userError ("Variable " ++ temp.name ++ " already exists"))
    else
      .ok ((temp.name, temp) :: vars)

/-! ### Predicates and concrete inputs used by the theorems -/

/-- True unless the parse outcome is the silent no-match `Ok(None)`: a hard
error or a successful node both count as committed outcomes. -/
def committedOutcome {α : Type} : Except CustomError (Option α × List TokenContainer) → Bool
| .ok (none, _) => false
| _ => true

/-- True exactly when the outcome is a modelled Rust panic. -/
def isPanicked {α : Type} : Except RtErr α → Bool
| .error (.panicked _) => true
| _ => false

/-- The token sequence of the source text `ju fu int x 5`. -/
def juFuIntX5 : List TokenContainer :=
  [⟨.KeywordModifier .Constant, 1, 0⟩, ⟨.KeywordModifier .Global, 1, 0⟩,
   ⟨.Identifier "int", 1, 0⟩, ⟨.Identifier "x", 1, 0⟩, ⟨.Int 5, 1, 0⟩]

/-- An environment holding one binding named x at scope level 0. -/
def globalXEnv : List (String × VariableStruct) :=
  [("x", VariableStruct.new "x" (VariableType.Integer 1) 0 false)]

/-! ### Theorems -/

/-- Claim C1: for the token sequence of `ju fu int x 5`, ConstVar parsing
consumes the `ju` token, tries PrivateVar, then GlobalVar, then plain Vd in
that fixed order, and returns ConstVar(GlobalVar(Vd with type int,
identifier x, exp 5)), consuming the whole queue. -/
theorem constvar_parse_ju_fu_int_x_5 :
    ConstVar.parse is_type_def_builtin juFuIntX5 =
      .ok (some (ConstVar.GlobalVar ⟨⟨⟨"int"⟩, "x", Exp.intLit 5⟩⟩), []) := rfl

/-- Claim C2: for every token queue and every registry, once a
var-declaration parse rule has consumed its deciding modifier keyword (`fu`
for GlobalVar, `pu` for PrivateVar, `ju` for ConstVar), the result is never
the silent no-match outcome: a continuation failure is a hard parse error. -/
theorem modifier_commit_never_silent (is_type_def : String → Bool)
    (rest : List TokenContainer) (l c : Nat) :
    committedOutcome (GlobalVar.parse is_type_def (⟨.KeywordModifier .Global, l, c⟩ :: rest)) = true ∧
    committedOutcome (PrivateVar.parse is_type_def (⟨.KeywordModifier .Private, l, c⟩ :: rest)) = true ∧
    committedOutcome (ConstVar.parse is_type_def (⟨.KeywordModifier .Constant, l, c⟩ :: rest)) = true := by
  refine ⟨?_, ?_, ?_⟩
  · simp only [GlobalVar.parse]
    split <;> rfl
  · simp only [PrivateVar.parse]
    split <;> rfl
  · simp only [ConstVar.parse]
    split <;> try rfl
    split <;> try rfl
    split <;> rfl

/-- Witness for C2: the committed outcome at the concrete one-token queue
holding only the `fu` keyword. -/
theorem modifier_commit_never_silent_witness :
    committedOutcome (GlobalVar.parse is_type_def_builtin [⟨.KeywordModifier .Global, 1, 0⟩]) = true :=
  (modifier_commit_never_silent is_type_def_builtin [] 1 0).1

/-- Claim C3: for every registry and every queue whose front token is an
identifier the registry does not contain, parse_type returns no-match and the
queue is exactly unchanged. -/
theorem parse_type_unregistered_nomatch (is_type_def : String → Bool)
    (identifier : String) (l c : Nat) (rest : List TokenContainer)
    (h : is_type_def identifier = false) :
    parse_type is_type_def (⟨Token.Identifier identifier, l, c⟩ :: rest) =
      (none, ⟨Token.Identifier identifier, l, c⟩ :: rest) := by
  simp [parse_type, h]

/-- Witness for C3: the identifier zzz is not in the built-in registry and is
left unconsumed. -/
theorem parse_type_unregistered_nomatch_witness :
    is_type_def_builtin "zzz" = false ∧
      parse_type is_type_def_builtin [⟨Token.Identifier "zzz", 1, 0⟩] =
        (none, [⟨Token.Identifier "zzz", 1, 0⟩]) :=
  ⟨rfl, parse_type_unregistered_nomatch is_type_def_builtin "zzz" 1 0 [] rfl⟩

/-- Claim C4: for every binding created with the constant flag set and every
new value of any type, set_value fails with the constant-mutation error, so
the value is never replaced. -/
theorem set_value_constant_fails (name : String) (value newValue : VariableType) (lvl : Nat) :
    VariableStruct.set_value (VariableStruct.new name value lvl true) newValue =
      .error (.userError "Cannot redefine value of constant") := rfl

/-- Witness for C4: a concrete constant integer binding rejects a null
overwrite. -/
theorem set_value_constant_fails_witness :
    VariableStruct.set_value (VariableStruct.new "x" (VariableType.Integer 1) 0 true) VariableType.Null =
      .error (.userError "Cannot redefine value of constant") :=
  set_value_constant_fails "x" (VariableType.Integer 1) VariableType.Null 0

/-- Counterexample to claim C5 as stated: the environment holds a binding
named x only at scope level 0, the declaration runs with active scope level 1
— no binding with that name exists in the active scope, so the claim says the
new binding is inserted — yet create_variable fails with the
duplicate-declaration error, because the binding map is keyed by name alone. -/
theorem create_variable_rejects_other_level_shadow :
    (globalXEnv.all fun p => p.2.scope_level != 1) = true ∧
    create_variable ["int", "x", "5"] globalXEnv 1 =
      .error (.userError "Variable x already exists") := ⟨rfl, rfl⟩

/-- Claim C5 (amended): declaring a variable whose name already has a binding
anywhere in the environment, at any scope level, fails with the
duplicate-declaration error; when the name is absent from the whole
environment the new binding is inserted. -/
theorem create_variable_duplicate_or_insert (line : List String)
    (vars : List (String × VariableStruct)) (lvl : Nat) (temp : VariableStruct)
    (h : new_variable line lvl = .ok temp) :
    ((vars.map Prod.fst).contains temp.name = true →
      create_variable line vars lvl =
        .error (.userError ("Variable " ++ temp.name ++ " already exists"))) ∧
    ((vars.map Prod.fst).contains temp.name = false →
      create_variable line vars lvl = .ok ((temp.name, temp) :: vars)) := by
  have base : create_variable line vars lvl =
      if (vars.map Prod.fst).contains temp.name then
        Except.error (.userError ("Variable " ++ temp.name ++ " already exists"))
      else Except.ok ((temp.name, temp) :: vars) := by
    unfold create_variable
    rw [h]
  constructor <;> intro hc
  · rw [base, hc, if_pos rfl]
  · rw [base, hc, if_neg (by decide : ¬((false : Bool) = true))]

/-- Witness for C5 (amended): the declaration `int x 5` is rejected against
an environment already holding x and inserted into an empty environment. -/
theorem create_variable_duplicate_or_insert_witness :
    new_variable ["int", "x", "5"] 1 = .ok (VariableStruct.new "x" (VariableType.Integer 5) 1 false) ∧
    create_variable ["int", "x", "5"] [("x", VariableStruct.new "x" (VariableType.Integer 1) 0 false)] 1 =
      .error (.userError "Variable x already exists") ∧
    create_variable ["int", "x", "5"] [] 1 =
      .ok [("x", VariableStruct.new "x" (VariableType.Integer 5) 1 false)] := by
  refine ⟨rfl, ?_, ?_⟩
  · exact (create_variable_duplicate_or_insert ["int", "x", "5"]
      [("x", VariableStruct.new "x" (VariableType.Integer 1) 0 false)] 1
      (VariableStruct.new "x" (VariableType.Integer 5) 1 false) rfl).1 rfl
  · exact (create_variable_duplicate_or_insert ["int", "x", "5"] [] 1
      (VariableStruct.new "x" (VariableType.Integer 5) 1 false) rfl).2 rfl

/-- Claim C6: for every declaration line that reaches the typed-literal step
(at least the two sliced words, no modifier conflict, no duplicated first
word, a declared type at position i) whose literal payload does not parse as
the declared type int, float or bool, new_variable propagates the parsing
failure to its caller as a failing outcome — the unchecked unwrap surfaces it
as a panic — and never swallows it into a success. -/
theorem new_variable_bad_payload_fails (lvl : Nat) (w0 w1 : String)
    (rest : List String) (ty s : String)
    (hconf : (([w0, w1].contains "fu") && ([w0, w1].contains "pu")) = false)
    (hdup : w0 ≠ w1)
    (hty : (w0 :: w1 :: rest).get? (modCount w0 w1) = some ty)
    (hs : (w0 :: w1 :: rest).get? (modCount w0 w1 + 2) = some s)
    (hbad : (ty = "int" ∧ parse_i32 s = none) ∨ (ty = "float" ∧ parseF32 s = none)
      ∨ (ty = "bool" ∧ parse_bool s = none)) :
    isPanicked (new_variable (w0 :: w1 :: rest) lvl) = true := by
  have hgety : getPanic (w0 :: w1 :: rest) (modCount w0 w1) = .ok ty := by
    unfold getPanic
    rw [hty]
  have hgets : getPanic (w0 :: w1 :: rest) (modCount w0 w1 + 2) = .ok s := by
    unfold getPanic
    rw [hs]
  rcases hbad with ⟨rfl, hp⟩ | ⟨rfl, hp⟩ | ⟨rfl, hp⟩ <;>
  · simp only [new_variable]
    rw [hconf, if_neg (by decide : ¬((false : Bool) = true)), if_neg hdup, hgety, hgets]
    simp [hp, isPanicked]

/-- Witness for C6: the payload abc does not parse as int and the declaration
`int x abc` fails. -/
theorem new_variable_bad_payload_fails_witness :
    parse_i32 "abc" = none ∧ isPanicked (new_variable ["int", "x", "abc"] 1) = true :=
  ⟨rfl, new_variable_bad_payload_fails 1 "int" "x" ["abc"] "int" "abc" rfl
    (by decide) rfl rfl (Or.inl ⟨rfl, rfl⟩)⟩

/-- Counterexample to claim C7 as stated: in the declaration
`ju pu ju int x 5` the modifier `ju` appears twice in the declaration head,
yet evaluation fails with the unknown-type error, not the duplicated-modifier
error — the duplicate check only compares the first two words. -/
theorem new_variable_repeated_ju_unreported :
    new_variable ["ju", "pu", "ju", "int", "x", "5"] 1 =
      .error (.userError "Unknown variable type") := rfl

/-- Claim C7 (amended): a declaration whose first two words are equal — in
particular a modifier repeated in positions one and two — fails with the
duplicated-modifier error; a modifier repeated beyond the second word is not
reported as such, since the check only compares the first two words. -/
theorem new_variable_duplicate_first_two_words (lvl : Nat) (w0 w1 : String)
    (rest : List String) (heq : w0 = w1) :
    new_variable (w0 :: w1 :: rest) lvl =
      .error (.userError ("Syntax error: to many " ++ w0 ++ " in variable declaration")) := by
  subst heq
  have e1 : ([w0, w0].contains "fu") = decide ("fu" = w0) := by simp
  have e2 : ([w0, w0].contains "pu") = decide ("pu" = w0) := by simp
  have hconf : (([w0, w0].contains "fu") && ([w0, w0].contains "pu")) = false := by
    rw [e1, e2]
    rcases eq_or_ne w0 "fu" with h | h
    · subst h; decide
    · rw [decide_eq_false (fun e => h e.symm), Bool.false_and]
  simp only [new_variable]
  rw [hconf, if_neg (by decide : ¬((false : Bool) = true)), if_pos trivial]

/-- Witness for C7 (amended): the declaration `ju ju` fails with the
duplicated-modifier error naming ju. -/
theorem new_variable_duplicate_first_two_words_witness :
    new_variable ["ju", "ju"] 1 =
      .error (.userError "Syntax error: to many ju in variable declaration") :=
  new_variable_duplicate_first_two_words 1 "ju" "ju" [] rfl

/-- Claim C8: evaluating tokenize at the failing input, a source text ending
in a lone `/` — the loop emits the divide token but never advances the
current character, so tokenization does not terminate for any amount of
fuel. -/
theorem tokenize_trailing_slash_loops (fuel : Nat) : tokenize fuel "/" = none := by
  have key : ∀ n line acc, tokenize_loop n (some '/') [] line acc = none := by
    intro n
    induction n with
    | zero => intro line acc; rfl
    | succ m ih => intro line acc; exact ih line (acc ++ [⟨.Div, line, 0⟩])
  exact key fuel 1 []

/-- Witness for C8: with fuel for a thousand loop iterations, tokenizing the
one-character input `/` still has not terminated. -/
theorem tokenize_trailing_slash_loops_witness : tokenize 1000 "/" = none :=
  tokenize_trailing_slash_loops 1000

/-- Claim C9: tokenizing twenty 9 digits, a value beyond the 32-bit unsigned
range, panics through the unchecked parse of the accumulated digits instead
of returning a lexical error. -/
theorem tokenize_u32_overflow_panics :
    tokenize 20 "99999999999999999999" =
      some (LexOutcome.panicked "called unwrap on an Err value (u32 parse)") := rfl

/-- Claim C10: a declaration line with a single word panics in the slice of
the first two words, and the two-word line `int x` panics reading position
i + 2; neither reports an error through the error channel. -/
theorem new_variable_short_line_panics :
    new_variable ["int"] 1 = .error (.panicked "range end index 2 out of range for the line slice") ∧
    new_variable ["int", "x"] 1 =
      .error (.panicked "index out of bounds: the len is 2 but the index is 2") := ⟨rfl, rfl⟩

end Skribi
